import Mathlib

/-!
Shallow embedding of `pipeline_orchestration.py` from the repository
`multiple_endpoints_bot`: a LangGraph workflow that classifies a movie
question, dispatches it to a retrieval (RAG) endpoint, a statistics (SQL)
endpoint, or both, and fuses the two answers on the BOTH path.

External effects are modelled by an environment `Env` of oracles:
the text-generation service (used by the classifier and by the fuser) and
the two HTTP endpoints.  A fallible call is `Except String A`, where
`Except.error e` models a raised Python exception whose description is `e`.
A node that catches exceptions (the try/except blocks of `rag_node`,
`sql_node`, `both_node`) turns the error into state fields;
`determine_route` has no try/except, so its failure propagates out of the
workflow invocation.
-/

set_option maxRecDepth 8000

namespace Pipeline

/-- Messages as used by the workflow state (HumanMessage / AIMessage);
only the content string is ever read by the workflow. -/
inductive Message where
  | human (content : String)
  | ai (content : String)
  deriving DecidableEq

/-- Content projection of a message. -/
def Message.content : Message → String
  | .human c => c
  | .ai c => c

/-- The workflow State TypedDict of `pipeline_orchestration.py`. -/
structure State where
  messages : List Message
  next_step : String
  current_response : String
  error : Option String
  deriving DecidableEq

/-- Payload of a successful `call_rag_endpoint`: the parsed JSON with its
answer field (a missing field raises, which is folded into the `Except`
error of the call). -/
structure RagResponse where
  answer : String
  deriving DecidableEq

/-- Payload of a successful `call_sql_endpoint`: the parsed JSON with its
sql_query and answer fields. -/
structure SqlResponse where
  sql_query : String
  answer : String
  deriving DecidableEq

/-- The external world: the text-generation service (prompt to generated
text) and the two downstream endpoints (question to parsed payload).
`Except.error e` models a raised exception with description `e`. -/
structure Env where
  llm : String → Except String String
  rag_endpoint : String → Except String RagResponse
  sql_endpoint : String → Except String SqlResponse

/-- Char-level model of Python str.strip whitespace. -/
def isSpaceChar (c : Char) : Bool :=
  c == ' ' || c == '\t' || c == '\n' || c == '\r'

/-- Python str.strip: drop leading and trailing whitespace. -/
def pyStrip (s : String) : String :=
  ⟨((s.data.dropWhile isSpaceChar).reverse.dropWhile isSpaceChar).reverse⟩

/-- Python str.upper: uppercase every character. -/
def pyUpper (s : String) : String :=
  ⟨s.data.map Char.toUpper⟩

/-- Model of the Python expression reading the content of the last message
of the state. -/
def lastMessageContent (msgs : List Message) : String :=
  (msgs.getLast?).elim "" Message.content

/-- The classification prompt built in `determine_route` (the f-string of
the source with the question interpolated, verbatim). -/
def routing_prompt (last_message : String) : String :=
  "Given the user question: \x27" ++ last_message ++ "\x27\n    We have two different movie databases:\n\n    1. Pagila (SQL): Contains basic movie information and rental data:\n       - Basic info: title, release year, rating, language, duration\n       - Rental data: rental counts, inventory, popularity metrics\n       - Example queries: \n         - \"When was X released?\"\n         - \"What\x27s the rating of X?\"\n         - \"most rented movies\"\n         - \"rental counts\"\n         - \"popular genres\"\n    \n    2. CMU Movie Summaries (RAG): Contains detailed movie information:\n       - Plot summaries\n       - Themes and story elements\n       - Actor roles and character information\n       - Example queries:\n         - \"What is the plot of X?\"\n         - \"movies about Y theme\"\n         - \"who played Z character?\"\n         - \"find movies similar to X\"\n\n    Determine if this question requires:\n    1. SQL (Pagila) - for rental/inventory/basic stats\n    2. RAG (CMU Summaries) - for plot/content/detailed info\n    3. BOTH - only if the question specifically needs to combine rental data with detailed movie information\n    \n    Respond with only one of: \x27RAG\x27, \x27SQL\x27, or \x27BOTH\x27\n    \n    Question type analysis:\n    1. If asking about rentals, counts, or popularity -> SQL\n    2. If asking about plot, story, or movie details -> RAG\n    3. If explicitly combining rental metrics with movie details -> BOTH\n    \n    If user has specifically asked to ue SQL then use the \x27SQL\x27 or \x27BOTH\x27\n    if you think the question asked is based on previous question and if previous question used \x27SQL\x27\n    then just use \x27SQL"

/-- The integration prompt built in `both_node` (the f-string of the source
with the question and the two source answers interpolated, verbatim). -/
def integration_prompt (question sql_answer rag_answer : String) : String :=
  "Given a user question and two different sources of movie information, create a coherent, integrated response.\n\nUser Question: " ++ question ++ "\n\nSource 1 (Database/SQL Information about rentals and statistics):\n" ++ sql_answer ++ "\n\nSource 2 (Movie Details/Plot Information):\n" ++ rag_answer ++ "\n\nPlease analyze both sources and create a comprehensive response that:\n1. Integrates relevant information from both sources\n2. Highlights any interesting connections or patterns\n3. Addresses the user\x27s question completely\n4. Acknowledges if certain information is missing from either source\n\nResponse should be clear, well-organized, and natural-sounding."

/-- Node determine_route: one generation call (no try/except, so a failure
propagates), then the next_step field is set to the generated text after
strip and upper. -/
def determine_route (env : Env) (state : State) : Except String State :=
  let last_message := lastMessageContent state.messages
  match env.llm (routing_prompt last_message) with
  | .error e => .error e
  | .ok content => .ok { state with next_step := pyUpper (pyStrip content) }

/-- The conditional-edge function route_to_node of the source. -/
def route_to_node (state : State) : String :=
  if state.next_step = "RAG" then "rag_node"
  else if state.next_step = "SQL" then "sql_node"
  else "both_node"

/-- Node rag_node: call the RAG endpoint inside try/except; on failure the
error field is set and the response degrades to an inline error string. -/
def rag_node (env : Env) (state : State) : State :=
  let question := lastMessageContent state.messages
  match env.rag_endpoint question with
  | .ok result => { state with current_response := result.answer }
  | .error e =>
      { state with error := some e,
                   current_response := "Error calling RAG endpoint: " ++ e }

/-- Node sql_node: call the SQL endpoint inside try/except; on success the
response is the generated query and the answer, formatted by the f-string
of the source as the line SQL Query: ... followed by the line Answer: ... -/
def sql_node (env : Env) (state : State) : State :=
  let question := lastMessageContent state.messages
  match env.sql_endpoint question with
  | .ok result =>
      { state with current_response :=
          "SQL Query: " ++ result.sql_query ++ "\nAnswer: " ++ result.answer }
  | .error e =>
      { state with error := some e,
                   current_response := "Error calling SQL endpoint: " ++ e }

/-- Node both_node: one try/except around the RAG call, then the SQL call,
then the integration generation call — Python runs them sequentially, and
the first raised exception jumps to the single except clause. -/
def both_node (env : Env) (state : State) : State :=
  let question := lastMessageContent state.messages
  match env.rag_endpoint question with
  | .error e =>
      { state with error := some e,
                   current_response := "Error processing combined query: " ++ e }
  | .ok rag_result =>
    match env.sql_endpoint question with
    | .error e =>
        { state with error := some e,
                     current_response := "Error processing combined query: " ++ e }
    | .ok sql_result =>
      match env.llm (integration_prompt question sql_result.answer rag_result.answer) with
      | .error e =>
          { state with error := some e,
                       current_response := "Error processing combined query: " ++ e }
      | .ok integrated_response =>
          { state with current_response := integrated_response }

/-- The node table of `create_workflow` (add_node): node name to node
function; `determine_route` is the only fallible node. -/
def node_fn (env : Env) (name : String) (state : State) : Except String State :=
  if name = "determine_route" then determine_route env state
  else if name = "rag_node" then .ok (rag_node env state)
  else if name = "sql_node" then .ok (sql_node env state)
  else if name = "both_node" then .ok (both_node env state)
  else .error ("unknown node: " ++ name)

/-- The edge table of `create_workflow`: the conditional edge out of
`determine_route` (via `route_to_node`), and each branch node has a plain
edge to END (returned as `none`). -/
def next_target (name : String) (state : State) : Option String :=
  if name = "determine_route" then some (route_to_node state)
  else none

/-- Execution of the compiled graph from a node, with fuel (LangGraph has a
recursion limit); returns the final state and the trace of executed node
names.  An uncaught node exception aborts the run. -/
def run_from (env : Env) (fuel : Nat) (name : String) (state : State) :
    Except String (State × List String) :=
  match fuel with
  | 0 => .error "GraphRecursionError"
  | fuel + 1 =>
    match node_fn env name state with
    | .error e => .error e
    | .ok state1 =>
      match next_target name state1 with
      | none => .ok (state1, [name])
      | some nxt =>
        match run_from env fuel nxt state1 with
        | .error e => .error e
        | .ok (final, trace) => .ok (final, name :: trace)

/-- LangGraph default recursion limit. -/
def recursion_limit : Nat := 25

/-- Model of workflow.invoke: run from the entry point `determine_route`. -/
def workflow_invoke (env : Env) (state : State) :
    Except String (State × List String) :=
  run_from env recursion_limit "determine_route" state

/-- The dict returned by `process_question`. -/
structure OrchestrationResult where
  question : String
  response : String
  route_taken : String
  error : Option String
  deriving DecidableEq

/-- The initial_state dict built inside `process_question`. -/
def initial_state (question : String) : State :=
  { messages := [Message.human question],
    next_step := "",
    current_response := "",
    error := none }

/-- Top-level process_question: build the initial state, invoke the
workflow, and project the final state into the result dict.
`Except.error e` is an exception escaping `process_question`. -/
def process_question (env : Env) (question : String) :
    Except String OrchestrationResult :=
  match workflow_invoke env (initial_state question) with
  | .error e => .error e
  | .ok (final_state, _) =>
      .ok { question := question,
            response := final_state.current_response,
            route_taken := final_state.next_step,
            error := final_state.error }

/-- The trace of node names executed by one invocation. -/
def process_trace (env : Env) (question : String) : Except String (List String) :=
  Except.map Prod.snd (workflow_invoke env (initial_state question))

/-- Concrete-prompt discriminator used by test environments (executable
stand-in for distinguishing the two generation call sites). -/
def promptHasPrefix (s p : String) : Bool :=
  p.data.isPrefixOf s.data

/-- The state as it stands right after a successful classification of
question q with generated decision text c. -/
def routed_state (q c : String) : State :=
  { messages := [Message.human q],
    next_step := pyUpper (pyStrip c),
    current_response := "",
    error := none }

/-- Test environment for C1: classification answers BOTH, the RAG endpoint
raises, the SQL endpoint succeeds, and the fuser would answer FUSED if it
were called. -/
def envC1 : Env :=
  { llm := fun p => if promptHasPrefix p "Given the user question" then .ok "BOTH" else .ok "FUSED",
    rag_endpoint := fun _ => .error "boom",
    sql_endpoint := fun _ => .ok ⟨"SELECT 1", "sa"⟩ }

/-- Test environment for C2: the classifier generates the unrecognized
decision text UNKNOWN; both endpoints succeed. -/
def envC2 : Env :=
  { llm := fun _ => .ok "UNKNOWN",
    rag_endpoint := fun _ => .ok ⟨"ra"⟩,
    sql_endpoint := fun _ => .ok ⟨"SELECT 1", "sa"⟩ }

/-- Test environment for C3: the classification generation call raises. -/
def envC3 : Env :=
  { llm := fun _ => .error "LLM down",
    rag_endpoint := fun _ => .ok ⟨"ra"⟩,
    sql_endpoint := fun _ => .ok ⟨"SELECT 1", "sa"⟩ }

/-- Test environment for C4 (counterexample): RAG route succeeds but its
answer is the empty string. -/
def envC4 : Env :=
  { llm := fun _ => .ok "RAG",
    rag_endpoint := fun _ => .ok ⟨""⟩,
    sql_endpoint := fun _ => .ok ⟨"SELECT 1", "sa"⟩ }

/-- Test environment for C4 (witness): SQL route and the SQL endpoint
raises. -/
def envC4b : Env :=
  { llm := fun _ => .ok "SQL",
    rag_endpoint := fun _ => .ok ⟨"ra"⟩,
    sql_endpoint := fun _ => .error "db down" }

/-- Test environment for C5: SQL route and the SQL endpoint raises. -/
def envC5 : Env :=
  { llm := fun _ => .ok "SQL",
    rag_endpoint := fun _ => .ok ⟨"ra"⟩,
    sql_endpoint := fun _ => .error "boom" }

/-- Test environment for C6: unrecognized classifier output UNKNOWN. -/
def envC6 : Env :=
  { llm := fun _ => .ok "UNKNOWN",
    rag_endpoint := fun _ => .ok ⟨"ra"⟩,
    sql_endpoint := fun _ => .ok ⟨"SELECT 1", "sa"⟩ }

/-- Test environment for C7: classification answers BOTH, both endpoints
succeed, the fuse generation call raises. -/
def envC7 : Env :=
  { llm := fun p =>
      if promptHasPrefix p "Given the user question" then .ok "BOTH" else .error "fuse down",
    rag_endpoint := fun _ => .ok ⟨"ra"⟩,
    sql_endpoint := fun _ => .ok ⟨"SELECT 1", "sa"⟩ }

/-- Test environment for C8: SQL route with a successful structured-query
response. -/
def envC8 : Env :=
  { llm := fun _ => .ok "SQL",
    rag_endpoint := fun _ => .ok ⟨"ra"⟩,
    sql_endpoint := fun _ => .ok ⟨"SELECT title FROM film LIMIT 5", "Movie A, Movie B"⟩ }

/-- Test environment for C9: RAG route, everything succeeds. -/
def envC9 : Env :=
  { llm := fun _ => .ok "RAG",
    rag_endpoint := fun _ => .ok ⟨"a"⟩,
    sql_endpoint := fun _ => .ok ⟨"SELECT 1", "sa"⟩ }

/-- Test environment for C10: SQL route, everything succeeds. -/
def envC10 : Env :=
  { llm := fun _ => .ok "SQL",
    rag_endpoint := fun _ => .ok ⟨"ra"⟩,
    sql_endpoint := fun _ => .ok ⟨"SELECT 1", "sa"⟩ }

/-- Classification applied to the initial state, in match form. -/
lemma determine_route_init (env : Env) (q : String) :
    determine_route env (initial_state q) =
      match env.llm (routing_prompt q) with
      | .error e => .error e
      | .ok content => .ok (routed_state q content) := rfl

/-- One unfolding of the graph execution: the classifier step, then the
run continues from the routed branch node. -/
lemma invoke_step (env : Env) (q : String) :
    workflow_invoke env (initial_state q) =
      match determine_route env (initial_state q) with
      | .error e => .error e
      | .ok s1 =>
        match run_from env 24 (route_to_node s1) s1 with
        | .error e => .error e
        | .ok (final, trace) => .ok (final, "determine_route" :: trace) := rfl

/-- Running from rag_node executes it and stops (edge to END). -/
lemma run_rag (env : Env) (s1 : State) :
    run_from env 24 "rag_node" s1 = .ok (rag_node env s1, ["rag_node"]) := rfl

/-- Running from sql_node executes it and stops (edge to END). -/
lemma run_sql (env : Env) (s1 : State) :
    run_from env 24 "sql_node" s1 = .ok (sql_node env s1, ["sql_node"]) := rfl

/-- Running from both_node executes it and stops (edge to END). -/
lemma run_both (env : Env) (s1 : State) :
    run_from env 24 "both_node" s1 = .ok (both_node env s1, ["both_node"]) := rfl

/-- Routing decision on the state right after classification. -/
lemma route_to_node_routed (q c : String) :
    route_to_node (routed_state q c) =
      if pyUpper (pyStrip c) = "RAG" then "rag_node"
      else if pyUpper (pyStrip c) = "SQL" then "sql_node"
      else "both_node" := rfl

/-- Full evaluation of one workflow invocation, by cases on the generated
decision text. -/
lemma invoke_eval (env : Env) (q : String) :
    workflow_invoke env (initial_state q) =
      match env.llm (routing_prompt q) with
      | .error e => .error e
      | .ok content =>
          if pyUpper (pyStrip content) = "RAG" then
            .ok (rag_node env (routed_state q content), ["determine_route", "rag_node"])
          else if pyUpper (pyStrip content) = "SQL" then
            .ok (sql_node env (routed_state q content), ["determine_route", "sql_node"])
          else
            .ok (both_node env (routed_state q content), ["determine_route", "both_node"]) := by
  rw [invoke_step, determine_route_init]
  cases hllm : env.llm (routing_prompt q) with
  | error e => rfl
  | ok content =>
    dsimp only []
    by_cases hR : pyUpper (pyStrip content) = "RAG"
    · have hroute : route_to_node (routed_state q content) = "rag_node" := by
        rw [route_to_node_routed, if_pos hR]
      rw [hroute, run_rag, if_pos hR]
    · by_cases hS : pyUpper (pyStrip content) = "SQL"
      · have hroute : route_to_node (routed_state q content) = "sql_node" := by
          rw [route_to_node_routed, if_neg hR, if_pos hS]
        rw [hroute, run_sql, if_neg hR, if_pos hS]
      · have hroute : route_to_node (routed_state q content) = "both_node" := by
          rw [route_to_node_routed, if_neg hR, if_neg hS]
        rw [hroute, run_both, if_neg hR, if_neg hS]

/-- A failing classification call aborts the invocation with its error. -/
lemma invoke_err (env : Env) (q e : String)
    (he : env.llm (routing_prompt q) = .error e) :
    workflow_invoke env (initial_state q) = .error e := by
  rw [invoke_eval, he]

/-- A decision normalizing to RAG runs exactly the rag branch. -/
lemma invoke_rag (env : Env) (q c : String)
    (hc : env.llm (routing_prompt q) = .ok c) (h : pyUpper (pyStrip c) = "RAG") :
    workflow_invoke env (initial_state q) =
      .ok (rag_node env (routed_state q c), ["determine_route", "rag_node"]) := by
  rw [invoke_eval, hc]; dsimp only []; rw [if_pos h]

/-- A decision normalizing to SQL runs exactly the sql branch. -/
lemma invoke_sql (env : Env) (q c : String)
    (hc : env.llm (routing_prompt q) = .ok c) (h : pyUpper (pyStrip c) = "SQL") :
    workflow_invoke env (initial_state q) =
      .ok (sql_node env (routed_state q c), ["determine_route", "sql_node"]) := by
  have hR : pyUpper (pyStrip c) ≠ "RAG" := by rw [h]; decide
  rw [invoke_eval, hc]; dsimp only []; rw [if_neg hR, if_pos h]

/-- Any other decision runs exactly the both branch. -/
lemma invoke_both (env : Env) (q c : String)
    (hc : env.llm (routing_prompt q) = .ok c)
    (h1 : pyUpper (pyStrip c) ≠ "RAG") (h2 : pyUpper (pyStrip c) ≠ "SQL") :
    workflow_invoke env (initial_state q) =
      .ok (both_node env (routed_state q c), ["determine_route", "both_node"]) := by
  rw [invoke_eval, hc]; dsimp only []; rw [if_neg h1, if_neg h2]

/-- The result dict as a projection of the final workflow state. -/
lemma process_question_eq (env : Env) (q : String) :
    process_question env q =
      match workflow_invoke env (initial_state q) with
      | .error e => .error e
      | .ok (final, _) =>
          .ok ⟨q, final.current_response, final.next_step, final.error⟩ := rfl

/-- Inversion: a successful invocation comes from a successful
classification followed by exactly one branch. -/
lemma invoke_inversion (env : Env) (q : String) (st : State) (tr : List String)
    (h : workflow_invoke env (initial_state q) = .ok (st, tr)) :
    ∃ c, env.llm (routing_prompt q) = .ok c ∧
      ((pyUpper (pyStrip c) = "RAG" ∧ st = rag_node env (routed_state q c) ∧
          tr = ["determine_route", "rag_node"]) ∨
       (pyUpper (pyStrip c) = "SQL" ∧ st = sql_node env (routed_state q c) ∧
          tr = ["determine_route", "sql_node"]) ∨
       (st = both_node env (routed_state q c) ∧
          tr = ["determine_route", "both_node"])) := by
  rw [invoke_eval] at h
  cases hllm : env.llm (routing_prompt q) with
  | error e => rw [hllm] at h; exact absurd h (by simp)
  | ok content =>
    rw [hllm] at h
    dsimp only [] at h
    refine ⟨content, rfl, ?_⟩
    by_cases hR : pyUpper (pyStrip content) = "RAG"
    · rw [if_pos hR] at h
      obtain ⟨h1, h2⟩ := Prod.mk.injEq .. ▸ (Except.ok.inj h)
      exact Or.inl ⟨hR, h1.symm, h2.symm⟩
    · by_cases hS : pyUpper (pyStrip content) = "SQL"
      · rw [if_neg hR, if_pos hS] at h
        obtain ⟨h1, h2⟩ := Prod.mk.injEq .. ▸ (Except.ok.inj h)
        exact Or.inr (Or.inl ⟨hS, h1.symm, h2.symm⟩)
      · rw [if_neg hR, if_neg hS] at h
        obtain ⟨h1, h2⟩ := Prod.mk.injEq .. ▸ (Except.ok.inj h)
        exact Or.inr (Or.inr ⟨h1.symm, h2.symm⟩)

/-- Evaluation form of rag_node. -/
lemma rag_node_eval (env : Env) (s : State) :
    rag_node env s =
      match env.rag_endpoint (lastMessageContent s.messages) with
      | .ok result => { s with current_response := result.answer }
      | .error e =>
          { s with error := some e,
                   current_response := "Error calling RAG endpoint: " ++ e } := rfl

/-- Evaluation form of sql_node. -/
lemma sql_node_eval (env : Env) (s : State) :
    sql_node env s =
      match env.sql_endpoint (lastMessageContent s.messages) with
      | .ok result =>
          { s with current_response :=
              "SQL Query: " ++ result.sql_query ++ "\nAnswer: " ++ result.answer }
      | .error e =>
          { s with error := some e,
                   current_response := "Error calling SQL endpoint: " ++ e } := rfl

/-- Evaluation form of both_node: sequential RAG call, SQL call, fuse call
inside one try/except. -/
lemma both_node_eval (env : Env) (s : State) :
    both_node env s =
      match env.rag_endpoint (lastMessageContent s.messages) with
      | .error e =>
          { s with error := some e,
                   current_response := "Error processing combined query: " ++ e }
      | .ok rag_result =>
        match env.sql_endpoint (lastMessageContent s.messages) with
        | .error e =>
            { s with error := some e,
                     current_response := "Error processing combined query: " ++ e }
        | .ok sql_result =>
          match env.llm (integration_prompt (lastMessageContent s.messages)
              sql_result.answer rag_result.answer) with
          | .error e =>
              { s with error := some e,
                       current_response := "Error processing combined query: " ++ e }
          | .ok integrated_response =>
              { s with current_response := integrated_response } := rfl

/-- The last message after classification is still the question. -/
lemma last_routed (q c : String) : lastMessageContent (routed_state q c).messages = q := rfl

/-- rag_node does not touch the messages list. -/
lemma rag_node_messages (env : Env) (s : State) :
    (rag_node env s).messages = s.messages := by
  rw [rag_node_eval]
  cases env.rag_endpoint (lastMessageContent s.messages) <;> rfl

/-- sql_node does not touch the messages list. -/
lemma sql_node_messages (env : Env) (s : State) :
    (sql_node env s).messages = s.messages := by
  rw [sql_node_eval]
  cases env.sql_endpoint (lastMessageContent s.messages) <;> rfl

/-- both_node does not touch the messages list. -/
lemma both_node_messages (env : Env) (s : State) :
    (both_node env s).messages = s.messages := by
  rw [both_node_eval]
  cases env.rag_endpoint (lastMessageContent s.messages) with
  | error e => rfl
  | ok rr =>
    dsimp only []
    cases env.sql_endpoint (lastMessageContent s.messages) with
    | error e => rfl
    | ok sr =>
      dsimp only []
      cases env.llm (integration_prompt (lastMessageContent s.messages) sr.answer rr.answer) <;> rfl

/-- rag_node does not touch the next_step field. -/
lemma rag_node_next_step (env : Env) (s : State) :
    (rag_node env s).next_step = s.next_step := by
  rw [rag_node_eval]
  cases env.rag_endpoint (lastMessageContent s.messages) <;> rfl

/-- sql_node does not touch the next_step field. -/
lemma sql_node_next_step (env : Env) (s : State) :
    (sql_node env s).next_step = s.next_step := by
  rw [sql_node_eval]
  cases env.sql_endpoint (lastMessageContent s.messages) <;> rfl

/-- both_node does not touch the next_step field. -/
lemma both_node_next_step (env : Env) (s : State) :
    (both_node env s).next_step = s.next_step := by
  rw [both_node_eval]
  cases env.rag_endpoint (lastMessageContent s.messages) with
  | error e => rfl
  | ok rr =>
    dsimp only []
    cases env.sql_endpoint (lastMessageContent s.messages) with
    | error e => rfl
    | ok sr =>
      dsimp only []
      cases env.llm (integration_prompt (lastMessageContent s.messages) sr.answer rr.answer) <;> rfl

/-- After rag_node, either no error was recorded or the response is the
inline RAG error string. -/
lemma rag_node_fail_shape (env : Env) (s : State) (h0 : s.error = none) :
    (rag_node env s).error = none ∨
    ∃ e, (rag_node env s).error = some e ∧
      (rag_node env s).current_response = "Error calling RAG endpoint: " ++ e := by
  rw [rag_node_eval]
  cases env.rag_endpoint (lastMessageContent s.messages) with
  | ok r => exact Or.inl h0
  | error e => exact Or.inr ⟨e, rfl, rfl⟩

/-- After sql_node, either no error was recorded or the response is the
inline SQL error string. -/
lemma sql_node_fail_shape (env : Env) (s : State) (h0 : s.error = none) :
    (sql_node env s).error = none ∨
    ∃ e, (sql_node env s).error = some e ∧
      (sql_node env s).current_response = "Error calling SQL endpoint: " ++ e := by
  rw [sql_node_eval]
  cases env.sql_endpoint (lastMessageContent s.messages) with
  | ok r => exact Or.inl h0
  | error e => exact Or.inr ⟨e, rfl, rfl⟩

/-- After both_node, either no error was recorded or the response is the
inline combined error string. -/
lemma both_node_fail_shape (env : Env) (s : State) (h0 : s.error = none) :
    (both_node env s).error = none ∨
    ∃ e, (both_node env s).error = some e ∧
      (both_node env s).current_response = "Error processing combined query: " ++ e := by
  rw [both_node_eval]
  cases env.rag_endpoint (lastMessageContent s.messages) with
  | error e => exact Or.inr ⟨e, rfl, rfl⟩
  | ok rr =>
    dsimp only []
    cases env.sql_endpoint (lastMessageContent s.messages) with
    | error e => exact Or.inr ⟨e, rfl, rfl⟩
    | ok sr =>
      dsimp only []
      cases env.llm (integration_prompt (lastMessageContent s.messages) sr.answer rr.answer) with
      | error e => exact Or.inr ⟨e, rfl, rfl⟩
      | ok t => exact Or.inl h0

/-- A string with a non-empty left part stays non-empty after append. -/
lemma append_ne_empty_left (p e : String) (hp : p.data ≠ []) : p ++ e ≠ "" := by
  intro h
  have h2 : p.data ++ e.data = [] := congrArg String.data h
  exact absurd (List.append_eq_nil.mp h2).1 hp

/-- Claim C1 (amended): on the BOTH route the two downstream calls run
sequentially inside a single try block, RAG first.  If the RAG call fails,
the SQL call and the fuser are skipped; if the SQL call fails after a
successful RAG call, the fuser is skipped.  In either case the request does
not abort: the error field is set to the caught description and the
response becomes the inline string Error processing combined query
followed by that description — not the per-source Error calling X endpoint
form, and no degraded text is fed to the fuser. -/
theorem C1_both_branch_single_try (env : Env) (q c e : String)
    (hc : env.llm (routing_prompt q) = .ok c) (hb : pyUpper (pyStrip c) = "BOTH") :
    (env.rag_endpoint q = .error e →
      process_question env q =
        .ok ⟨q, "Error processing combined query: " ++ e, "BOTH", some e⟩) ∧
    (∀ rr : RagResponse, env.rag_endpoint q = .ok rr → env.sql_endpoint q = .error e →
      process_question env q =
        .ok ⟨q, "Error processing combined query: " ++ e, "BOTH", some e⟩) := by
  have h1 : pyUpper (pyStrip c) ≠ "RAG" := by rw [hb]; decide
  have h2 : pyUpper (pyStrip c) ≠ "SQL" := by rw [hb]; decide
  rw [process_question_eq, invoke_both env q c hc h1 h2]
  dsimp only []
  constructor
  · intro hr
    rw [both_node_eval, last_routed, hr]
    dsimp only [routed_state]
    rw [hb]
  · intro rr hr hs
    rw [both_node_eval, last_routed, hr]
    dsimp only []
    rw [hs]
    dsimp only [routed_state]
    rw [hb]

/-- Counterexample for claim C1 as stated: with the classifier answering
BOTH, the RAG endpoint raising, the SQL endpoint healthy and a fuser that
would answer FUSED, the code returns the combined-query error text — the
response is not produced by the fuser and is not of the per-source Error
calling X endpoint form. -/
theorem C1_counterexample :
    process_question envC1 "q" =
      .ok ⟨"q", "Error processing combined query: boom", "BOTH", some "boom"⟩ ∧
    promptHasPrefix "Error processing combined query: boom" "Error calling" = false ∧
    ("Error processing combined query: boom" : String) ≠ "FUSED" :=
  ⟨rfl, rfl, by decide⟩

/-- Witness instantiating C1_both_branch_single_try on envC1. -/
theorem C1_witness :
    process_question envC1 "q" =
      .ok ⟨"q", "Error processing combined query: boom", "BOTH", some "boom"⟩ :=
  (C1_both_branch_single_try envC1 "q" "BOTH" "boom" rfl rfl).1 rfl

/-- Claim C2 (amended): for every returned result, route_taken equals the
classifier decision text after strip and upper, verbatim — it is RAG, SQL
or BOTH only when the classifier produced such a value, and an unrecognized
decision text is reported verbatim in route_taken even though the question
is routed to the BOTH branch. -/
theorem C2_route_taken_normalized (env : Env) (q : String) (r : OrchestrationResult)
    (h : process_question env q = .ok r) :
    ∃ c, env.llm (routing_prompt q) = .ok c ∧ r.route_taken = pyUpper (pyStrip c) := by
  rw [process_question_eq] at h
  cases hw : workflow_invoke env (initial_state q) with
  | error e => rw [hw] at h; exact absurd h (by simp)
  | ok pr =>
    obtain ⟨st, tr⟩ := pr
    rw [hw] at h
    dsimp only [] at h
    obtain ⟨c, hc, hcases⟩ := invoke_inversion env q st tr hw
    have hr : r = ⟨q, st.current_response, st.next_step, st.error⟩ := (Except.ok.inj h).symm
    refine ⟨c, hc, ?_⟩
    rw [hr]
    show st.next_step = pyUpper (pyStrip c)
    rcases hcases with ⟨_, hst, _⟩ | ⟨_, hst, _⟩ | ⟨hst, _⟩
    · rw [hst, rag_node_next_step]; rfl
    · rw [hst, sql_node_next_step]; rfl
    · rw [hst, both_node_next_step]; rfl

/-- Counterexample for claim C2 as stated: an unrecognized classifier
output UNKNOWN is reported verbatim as route_taken, which is none of RAG,
SQL, BOTH. -/
theorem C2_counterexample :
    process_question envC2 "q" = .ok ⟨"q", "UNKNOWN", "UNKNOWN", none⟩ ∧
    ("UNKNOWN" : String) ≠ "RAG" ∧ ("UNKNOWN" : String) ≠ "SQL" ∧
    ("UNKNOWN" : String) ≠ "BOTH" :=
  ⟨rfl, by decide, by decide, by decide⟩

/-- Witness instantiating C2_route_taken_normalized on envC2. -/
theorem C2_witness :
    ∃ c, envC2.llm (routing_prompt "q") = .ok c ∧
      (⟨"q", "UNKNOWN", "UNKNOWN", none⟩ : OrchestrationResult).route_taken =
        pyUpper (pyStrip c) :=
  C2_route_taken_normalized envC2 "q" ⟨"q", "UNKNOWN", "UNKNOWN", none⟩ rfl

/-- Claim C3 (amended): if the classification generation call errors, the
failure is terminal and no fallback route is taken, but it propagates as an
uncaught exception escaping process_question — no result dict (hence no
populated error field and no best-effort response string) is returned. -/
theorem C3_classifier_failure_escapes (env : Env) (q e : String)
    (he : env.llm (routing_prompt q) = .error e) :
    process_question env q = .error e := by
  rw [process_question_eq, invoke_err env q e he]

/-- Counterexample for claim C3 as stated: when the classification call
raises, process_question raises too instead of returning a result with a
populated error field. -/
theorem C3_counterexample : process_question envC3 "q" = .error "LLM down" := rfl

/-- Witness instantiating C3_classifier_failure_escapes on envC3. -/
theorem C3_witness : process_question envC3 "q" = .error "LLM down" :=
  C3_classifier_failure_escapes envC3 "q" "LLM down" rfl

/-- Claim C4 (amended): whenever any downstream call failed — the error
field of the returned result is set — the response is a non-empty inline
error-description string.  On a fully successful run the response echoes
the downstream answer or fused text verbatim, so it is empty exactly when
that text is empty. -/
theorem C4_failure_response_nonempty (env : Env) (q : String) (r : OrchestrationResult)
    (h : process_question env q = .ok r) (he : r.error ≠ none) : r.response ≠ "" := by
  rw [process_question_eq] at h
  cases hw : workflow_invoke env (initial_state q) with
  | error e => rw [hw] at h; exact absurd h (by simp)
  | ok pr =>
    obtain ⟨st, tr⟩ := pr
    rw [hw] at h
    dsimp only [] at h
    obtain ⟨c, hc, hcases⟩ := invoke_inversion env q st tr hw
    have hr : r = ⟨q, st.current_response, st.next_step, st.error⟩ := (Except.ok.inj h).symm
    rw [hr]
    rw [hr] at he
    show st.current_response ≠ ""
    have he2 : st.error ≠ none := he
    rcases hcases with ⟨_, hst, _⟩ | ⟨_, hst, _⟩ | ⟨hst, _⟩
    · rcases rag_node_fail_shape env (routed_state q c) rfl with hn | ⟨e, _, hresp⟩
      · rw [hst] at he2; exact absurd hn he2
      · rw [hst, hresp]; exact append_ne_empty_left _ e (by decide)
    · rcases sql_node_fail_shape env (routed_state q c) rfl with hn | ⟨e, _, hresp⟩
      · rw [hst] at he2; exact absurd hn he2
      · rw [hst, hresp]; exact append_ne_empty_left _ e (by decide)
    · rcases both_node_fail_shape env (routed_state q c) rfl with hn | ⟨e, _, hresp⟩
      · rw [hst] at he2; exact absurd hn he2
      · rw [hst, hresp]; exact append_ne_empty_left _ e (by decide)

/-- Counterexample for claim C4 as stated: a successful RAG call whose
answer is the empty string yields a returned result whose response is
empty. -/
theorem C4_counterexample :
    process_question envC4 "q" = .ok ⟨"q", "", "RAG", none⟩ := rfl

/-- Witness instantiating C4_failure_response_nonempty on envC4b. -/
theorem C4_witness :
    (⟨"q", "Error calling SQL endpoint: db down", "SQL", some "db down"⟩ :
      OrchestrationResult).response ≠ "" :=
  C4_failure_response_nonempty envC4b "q"
    ⟨"q", "Error calling SQL endpoint: db down", "SQL", some "db down"⟩ rfl (by decide)

/-- Claim C5 (confirmed): on the STATISTICS route with the SQL client
raising (resp. the RETRIEVAL route with the RAG client raising),
process_question still returns normally, the response is the inline error
description of the failure and the error field holds the caught
description. -/
theorem C5_single_route_failure_swallowed (env : Env) (q c e : String)
    (hc : env.llm (routing_prompt q) = .ok c) :
    (pyUpper (pyStrip c) = "SQL" → env.sql_endpoint q = .error e →
      process_question env q =
        .ok ⟨q, "Error calling SQL endpoint: " ++ e, "SQL", some e⟩) ∧
    (pyUpper (pyStrip c) = "RAG" → env.rag_endpoint q = .error e →
      process_question env q =
        .ok ⟨q, "Error calling RAG endpoint: " ++ e, "RAG", some e⟩) := by
  constructor
  · intro hS hfail
    rw [process_question_eq, invoke_sql env q c hc hS]
    dsimp only []
    rw [sql_node_eval, last_routed, hfail]
    dsimp only [routed_state]
    rw [hS]
  · intro hR hfail
    rw [process_question_eq, invoke_rag env q c hc hR]
    dsimp only []
    rw [rag_node_eval, last_routed, hfail]
    dsimp only [routed_state]
    rw [hR]

/-- Witness instantiating C5_single_route_failure_swallowed on envC5. -/
theorem C5_witness :
    process_question envC5 "q" =
      .ok ⟨"q", "Error calling SQL endpoint: boom", "SQL", some "boom"⟩ :=
  (C5_single_route_failure_swallowed envC5 "q" "SQL" "boom" rfl).1 rfl rfl

/-- Claim C6 (confirmed): every decision text whose strip-and-upper
normalization is neither RAG nor SQL — for example UNKNOWN — drives the
orchestrator into the BOTH branch. -/
theorem C6_unrecognized_routes_to_both (env : Env) (q c : String)
    (hc : env.llm (routing_prompt q) = .ok c)
    (h1 : pyUpper (pyStrip c) ≠ "RAG") (h2 : pyUpper (pyStrip c) ≠ "SQL") :
    process_trace env q = .ok ["determine_route", "both_node"] := by
  show Except.map Prod.snd (workflow_invoke env (initial_state q)) = _
  rw [invoke_both env q c hc h1 h2]
  rfl

/-- Witness instantiating C6_unrecognized_routes_to_both on envC6. -/
theorem C6_witness : process_trace envC6 "q" = .ok ["determine_route", "both_node"] :=
  C6_unrecognized_routes_to_both envC6 "q" "UNKNOWN" rfl (by decide) (by decide)

/-- Claim C7 (confirmed): on the BOTH route, if both client calls succeed
and the fuse generation call errors, process_question returns a populated
error field alongside the inline combined-query error description as the
response — the two raw source answers are not concatenated. -/
theorem C7_fusion_failure_terminal (env : Env) (q c e : String)
    (rr : RagResponse) (sr : SqlResponse)
    (hc : env.llm (routing_prompt q) = .ok c) (hb : pyUpper (pyStrip c) = "BOTH")
    (hr : env.rag_endpoint q = .ok rr) (hs : env.sql_endpoint q = .ok sr)
    (hf : env.llm (integration_prompt q sr.answer rr.answer) = .error e) :
    process_question env q =
      .ok ⟨q, "Error processing combined query: " ++ e, "BOTH", some e⟩ := by
  have h1 : pyUpper (pyStrip c) ≠ "RAG" := by rw [hb]; decide
  have h2 : pyUpper (pyStrip c) ≠ "SQL" := by rw [hb]; decide
  rw [process_question_eq, invoke_both env q c hc h1 h2]
  dsimp only []
  rw [both_node_eval, last_routed, hr]
  dsimp only []
  rw [hs]
  dsimp only []
  rw [hf]
  dsimp only [routed_state]
  rw [hb]

/-- Witness instantiating C7_fusion_failure_terminal on envC7. -/
theorem C7_witness :
    process_question envC7 "q" =
      .ok ⟨"q", "Error processing combined query: fuse down", "BOTH", some "fuse down"⟩ :=
  C7_fusion_failure_terminal envC7 "q" "BOTH" "fuse down" ⟨"ra"⟩ ⟨"SELECT 1", "sa"⟩
    rfl rfl rfl rfl rfl

/-- Claim C8 (confirmed): on the STATISTICS route with a successful SQL
call, the response carries both the generated query and the answer, with
the generated query prefixed before the answer. -/
theorem C8_sql_response_format (env : Env) (q c : String) (sr : SqlResponse)
    (hc : env.llm (routing_prompt q) = .ok c) (hS : pyUpper (pyStrip c) = "SQL")
    (hok : env.sql_endpoint q = .ok sr) :
    process_question env q =
      .ok ⟨q, "SQL Query: " ++ sr.sql_query ++ "\nAnswer: " ++ sr.answer, "SQL", none⟩ ∧
    ∃ pre mid, "SQL Query: " ++ sr.sql_query ++ "\nAnswer: " ++ sr.answer =
      pre ++ sr.sql_query ++ mid ++ sr.answer := by
  constructor
  · rw [process_question_eq, invoke_sql env q c hc hS]
    dsimp only []
    rw [sql_node_eval, last_routed, hok]
    dsimp only [routed_state]
    rw [hS]
  · exact ⟨"SQL Query: ", "\nAnswer: ", rfl⟩

/-- Witness instantiating C8_sql_response_format on envC8. -/
theorem C8_witness :
    process_question envC8 "q" =
      .ok ⟨"q", "SQL Query: " ++ "SELECT title FROM film LIMIT 5" ++ "\nAnswer: " ++
            "Movie A, Movie B", "SQL", none⟩ ∧
    ∃ pre mid, "SQL Query: " ++ "SELECT title FROM film LIMIT 5" ++ "\nAnswer: " ++
        "Movie A, Movie B" =
      pre ++ "SELECT title FROM film LIMIT 5" ++ mid ++ "Movie A, Movie B" :=
  C8_sql_response_format envC8 "q" "SQL" ⟨"SELECT title FROM film LIMIT 5", "Movie A, Movie B"⟩
    rfl rfl rfl

/-- Claim C9 (confirmed): every completed invocation executes the
classifier node exactly once followed by exactly one of the three branch
nodes; the trace is two nodes long, so no node re-runs and there is no
loop or re-routing. -/
theorem C9_single_classification_single_branch (env : Env) (q : String)
    (st : State) (tr : List String)
    (h : workflow_invoke env (initial_state q) = .ok (st, tr)) :
    (tr = ["determine_route", "rag_node"] ∨ tr = ["determine_route", "sql_node"] ∨
      tr = ["determine_route", "both_node"]) ∧
    tr.count "determine_route" = 1 ∧
    tr.count "rag_node" + tr.count "sql_node" + tr.count "both_node" = 1 := by
  obtain ⟨c, hc, hcases⟩ := invoke_inversion env q st tr h
  rcases hcases with ⟨_, _, htr⟩ | ⟨_, _, htr⟩ | ⟨_, htr⟩
  · exact ⟨Or.inl htr, by rw [htr]; decide, by rw [htr]; decide⟩
  · exact ⟨Or.inr (Or.inl htr), by rw [htr]; decide, by rw [htr]; decide⟩
  · exact ⟨Or.inr (Or.inr htr), by rw [htr]; decide, by rw [htr]; decide⟩

/-- Witness instantiating C9_single_classification_single_branch on envC9. -/
theorem C9_witness :
    ((["determine_route", "rag_node"] : List String) = ["determine_route", "rag_node"] ∨
      (["determine_route", "rag_node"] : List String) = ["determine_route", "sql_node"] ∨
      (["determine_route", "rag_node"] : List String) = ["determine_route", "both_node"]) ∧
    (["determine_route", "rag_node"] : List String).count "determine_route" = 1 ∧
    (["determine_route", "rag_node"] : List String).count "rag_node" +
      (["determine_route", "rag_node"] : List String).count "sql_node" +
      (["determine_route", "rag_node"] : List String).count "both_node" = 1 :=
  C9_single_classification_single_branch envC9 "q"
    ⟨[Message.human "q"], "RAG", "a", none⟩ ["determine_route", "rag_node"] rfl

/-- Claim C10 (confirmed): the question field of the returned result is the
input string verbatim, the final state still holds exactly the single
initial human message, and no node of the workflow modifies the messages
list. -/
theorem C10_question_and_messages_preserved (env : Env) (q : String)
    (st : State) (tr : List String)
    (h : workflow_invoke env (initial_state q) = .ok (st, tr)) :
    st.messages = [Message.human q] ∧
    process_question env q = .ok ⟨q, st.current_response, st.next_step, st.error⟩ ∧
    (∀ s, (rag_node env s).messages = s.messages) ∧
    (∀ s, (sql_node env s).messages = s.messages) ∧
    (∀ s, (both_node env s).messages = s.messages) ∧
    (∀ s s2, determine_route env s = .ok s2 → s2.messages = s.messages) := by
  refine ⟨?_, ?_, rag_node_messages env, sql_node_messages env, both_node_messages env, ?_⟩
  · obtain ⟨c, hc, hcases⟩ := invoke_inversion env q st tr h
    rcases hcases with ⟨_, hst, _⟩ | ⟨_, hst, _⟩ | ⟨hst, _⟩
    · rw [hst, rag_node_messages]; rfl
    · rw [hst, sql_node_messages]; rfl
    · rw [hst, both_node_messages]; rfl
  · rw [process_question_eq, h]
  · intro s s2 hd
    cases hllm : env.llm (routing_prompt (lastMessageContent s.messages)) with
    | error e =>
      have hde : determine_route env s = .error e := by
        show (match env.llm (routing_prompt (lastMessageContent s.messages)) with
          | .error e => (.error e : Except String State)
          | .ok content => .ok { s with next_step := pyUpper (pyStrip content) }) = .error e
        rw [hllm]
      rw [hde] at hd
      exact absurd hd (by simp)
    | ok content =>
      have hdo : determine_route env s =
          .ok { s with next_step := pyUpper (pyStrip content) } := by
        show (match env.llm (routing_prompt (lastMessageContent s.messages)) with
          | .error e => (.error e : Except String State)
          | .ok content => .ok { s with next_step := pyUpper (pyStrip content) }) = _
        rw [hllm]
      rw [hdo] at hd
      have h2 := Except.ok.inj hd
      rw [← h2]

/-- Witness instantiating C10_question_and_messages_preserved on envC10. -/
theorem C10_witness :
    (⟨[Message.human "q"], "SQL", "SQL Query: SELECT 1\nAnswer: sa", none⟩ : State).messages =
      [Message.human "q"] ∧
    process_question envC10 "q" =
      .ok ⟨"q", (⟨[Message.human "q"], "SQL", "SQL Query: SELECT 1\nAnswer: sa", none⟩ :
            State).current_response,
          (⟨[Message.human "q"], "SQL", "SQL Query: SELECT 1\nAnswer: sa", none⟩ :
            State).next_step,
          (⟨[Message.human "q"], "SQL", "SQL Query: SELECT 1\nAnswer: sa", none⟩ :
            State).error⟩ ∧
    (∀ s, (rag_node envC10 s).messages = s.messages) ∧
    (∀ s, (sql_node envC10 s).messages = s.messages) ∧
    (∀ s, (both_node envC10 s).messages = s.messages) ∧
    (∀ s s2, determine_route envC10 s = .ok s2 → s2.messages = s.messages) :=
  C10_question_and_messages_preserved envC10 "q"
    ⟨[Message.human "q"], "SQL", "SQL Query: SELECT 1\nAnswer: sa", none⟩
    ["determine_route", "sql_node"] rfl

end Pipeline
